import Mathlib

/-!
Verification of the studip-client local metadata store (`src/studip/database.py`)
against its natural-language specification.

The Python module is shallowly embedded: SQLite tables become Lean lists of row
structures, each `Database` method becomes a Lean function on a `Store` value,
and Python exceptions become an explicit `Except` (or an error constructor in a
result type).  Machine-level SQLite details (rowids, collations) are modelled
as: fresh rowids are `max + 1`, result sets come back in insertion (rowid)
order, and `ORDER BY` on strings is the lexicographic order on `String`.
-/

set_option linter.unusedVariables false

namespace Studip

/-- `SyncMode = IntEnum("SyncMode", "NoSync Metadata Full")` from `database.py`:
`IntEnum` numbers its members from 1, so `NoSync = 1`, `Metadata = 2`, `Full = 3`. -/
inductive SyncMode where
  | NoSync
  | Metadata
  | Full
deriving DecidableEq, Repr

/-- The integer value `int(mode)` persisted in the `sync` column. -/
def SyncMode.toInt : SyncMode → Int
  | .NoSync => 1
  | .Metadata => 2
  | .Full => 3

/-- Modelled from the spec: `EscapeMode` lives in `util.py`, which is not under
`src/`.  The spec (§4.4) names three escaping policies: reject,
transliterate-to-similar-safe-character, and pass-through.  Only the value
`Similar` (the `View` default in `database.py`) is used by the claims. -/
inductive EscapeMode where
  | Reject
  | Similar
  | Pass
deriving DecidableEq, Repr

/-- Modelled from the spec: `Charset` lives in `util.py`, which is not under
`src/`.  The spec (§4.4) names an ASCII-only and a full-Unicode policy. -/
inductive Charset where
  | Ascii
  | Unicode
deriving DecidableEq, Repr

/-- The Python `Course` class (`database.py` lines 19-56).  All constructor
parameters default to `None` and are modelled as `Option`, except `sync`,
which every database operation converts with `int(course.sync)` and which is
therefore modelled as a plain `SyncMode`. -/
structure Course where
  id : String
  semester : Option String := none
  number : Option String := none
  name : Option String := none
  type : Option String := none
  sync : SyncMode := .NoSync
  _abbrev : Option String := none
  _type_abbrev : Option String := none
deriving DecidableEq, Repr

/-- The `Course.abbrev` property: `self._abbrev if self._abbrev else
abbreviate_course_name(self.name)`.  `abbreviate_course_name` lives in
`util.py` (not under `src/`), so it is passed in as the parameter `af`; the
empty string is falsy in Python, hence the extra test. -/
def Course.abbrev (af : Option String → String) (c : Course) : String :=
  match c._abbrev with
  | some a => if a = "" then af c.name else a
  | none => af c.name

/-- The `Course.type_abbrev` property: `self._type_abbrev if self._type_abbrev
else abbreviate_course_type(self.type)`, with `abbreviate_course_type` passed
in as `taf`. -/
def Course.type_abbrev (taf : Option String → String) (c : Course) : String :=
  match c._type_abbrev with
  | some a => if a = "" then taf c.type else a
  | none => taf c.type

/-- The Python `File` class (`database.py` lines 59-92).  `path` is the logical
folder path, a Python list of folder names. -/
structure File where
  id : String
  course : Option String := none
  course_semester : Option String := none
  course_name : Option String := none
  _course_abbrev : Option String := none
  course_type : Option String := none
  _course_type_abbrev : Option String := none
  path : List String := []
  name : Option String := none
  extension : Option String := none
  author : Option String := none
  description : Option String := none
  description_url : Option String := none
  remote_date : Option Int := none
  copyrighted : Bool := false
  local_date : Option Int := none
  version : Option Int := none
deriving DecidableEq, Repr

/-- The `File.course_abbrev` property (`database.py` lines 82-84):

    return self._course_abbrev if self._course_abbrev
        else abbreviate_course_name(self.name)

Note that the fallback applies `abbreviate_course_name` to `self.name` — the
file's own name — not to `self.course_name`.  `abbreviate_course_name` is in
`util.py` (not under `src/`) and is passed in as `af`. -/
def File.course_abbrev (af : Option String → String) (f : File) : String :=
  match f._course_abbrev with
  | some a => if a = "" then af f.name else a
  | none => af f.name

/-- The `File.course_type_abbrev` property (`database.py` lines 86-89), which —
unlike `course_abbrev` — derives from the corresponding course field
`self.course_type`. -/
def File.course_type_abbrev (taf : Option String → String) (f : File) : String :=
  match f._course_type_abbrev with
  | some a => if a = "" then taf f.course_type else a
  | none => taf f.course_type

/-- The Python `View` class (`database.py` lines 106-117) with its default
format string, escape mode and charset. -/
structure View where
  id : Nat
  name : Option String := none
  format : String := "{course}/{type}/{short-path}/{name}{ext}"
  base : Option String := none
  escape : EscapeMode := .Similar
  charset : Charset := .Unicode
deriving DecidableEq, Repr

/-! ### Persisted rows

One structure per SQLite table touched by the claims.  The schema itself is in
`sql/setup.sql`, which is not under `src/`; column sets are taken from the
`INSERT`/`SELECT` statements in `database.py` and the table list in spec §6. -/

/-- A row of `semesters(id, name, ord)` (see `update_semester_list`). -/
structure SemesterRow where
  id : String
  name : Option String := none
  ord : Option Int := none
deriving DecidableEq, Repr

/-- A row of `courses(...)`.  The column `abbrev` is spelled `abbrv` because
`abbrev` is a Lean keyword.  `root` is the course's root folder id, read by
`create_parent_for_file`; the sync column stores `int(sync)` and per spec §6 it
only ever holds the three enum codes, so it is typed as `SyncMode` here. -/
structure CourseRow where
  id : String
  semester : Option String := none
  number : Option String := none
  name : Option String := none
  abbrv : Option String := none
  type : Option String := none
  type_abbrev : Option String := none
  sync : SyncMode := .NoSync
  root : Nat := 0
deriving DecidableEq, Repr

/-- A row of `folders(id, name, parent, course)`: per spec §6 exactly one of
`parent`/`course` is non-null.  `id` is the SQLite integer rowid. -/
structure FolderRow where
  id : Nat
  name : Option String := none
  parent : Option Nat := none
  course : Option String := none
deriving DecidableEq, Repr

/-- A row of `files(...)` (column set from `add_file`/`update_file`). -/
structure FileRow where
  id : String
  folder : Nat := 0
  name : Option String := none
  extension : Option String := none
  author : Option String := none
  description : Option String := none
  remote_date : Option Int := none
  copyrighted : Bool := false
  local_date : Option Int := none
  version : Int := 0
deriving DecidableEq, Repr

/-- A row of `views(id, name, format, base, esc_mode, charset)`. -/
structure ViewRow where
  id : Nat
  name : Option String := none
  format : String := ""
  base : Option String := none
  esc_mode : EscapeMode := .Similar
  charset : Charset := .Unicode
deriving DecidableEq, Repr

/-- A row of `checkouts(view, file)` (composite primary key per spec §6). -/
structure CheckoutRow where
  view : Nat
  file : String
deriving DecidableEq, Repr

/-- The open store: one list per table, in rowid (insertion) order. -/
structure Store where
  semesters : List SemesterRow := []
  courses : List CourseRow := []
  folders : List FolderRow := []
  files : List FileRow := []
  views : List ViewRow := []
  checkouts : List CheckoutRow := []
deriving DecidableEq, Repr

def emptyStore : Store := {}

/-- The exceptions raised by `database.py`: the two exception classes it
defines, plus Python's `IndexError` (raised by the `rows[0]` pattern in
`create_parent_for_file` when a query comes back empty). -/
inductive DBError where
  | DatabaseVersionError
  | QueryError
  | IndexError
deriving DecidableEq, Repr

namespace Database

open Studip

/-! ### Database operations

Each definition embeds the like-named method of the `Database` class.  Methods
go through `Database.query`; when keyword arguments are used, `query` swallows
`sqlite3.IntegrityError` (`database.py` lines 180-184), and with
`expected_rows=0` it never reads the cursor, so the only `QueryError` sites are
queries with `expected_rows >= 1`.  None of the operations below uses
`expected_rows >= 1`, hence those returning `Except` can only fail with
`IndexError` (the `rows[0]` in `create_parent_for_file`). -/

/-- `list_checkouts(view_id)`: `SELECT file FROM checkouts WHERE view=:view`. -/
def list_checkouts (s : Store) (view_id : Nat) : List String :=
  (s.checkouts.filter (fun c => c.view == view_id)).map (·.file)

/-- `add_checkout(view_id, file_id)`: `INSERT INTO checkouts (view, file)`.
The pair is the composite primary key (spec §6, `setup.sql` is not under
`src/`); a duplicate insert raises `IntegrityError`, which `query` swallows,
leaving the table unchanged. -/
def add_checkout_s (s : Store) (view_id : Nat) (file_id : String) : Store :=
  if s.checkouts.any (fun c => c.view == view_id && c.file == file_id) then s
  else { s with checkouts := s.checkouts ++ [⟨view_id, file_id⟩] }

/-- `add_checkout` as the caller sees it: it returns normally (`None`) even on
a constraint violation, because `query` swallows `IntegrityError`. -/
def add_checkout (s : Store) (view_id : Nat) (file_id : String) :
    Except DBError Store :=
  .ok (add_checkout_s s view_id file_id)

/-- `reset_checkouts(view_id)`: `DELETE FROM checkouts WHERE view=:view`. -/
def reset_checkouts (s : Store) (view_id : Nat) : Store :=
  { s with checkouts := s.checkouts.filter (fun c => !(c.view == view_id)) }

/-- `add_view(view)`: `INSERT INTO views (id, name, format, base, esc_mode,
charset)`.  `id` is the primary key and `name` is UNIQUE (spec §6); a
violation of either raises `IntegrityError`, which `query` swallows. -/
def add_view_s (s : Store) (v : View) : Store :=
  if s.views.any (fun r => r.id == v.id || r.name == v.name) then s
  else
    { s with views := s.views ++
        [{ id := v.id, name := v.name, format := v.format, base := v.base,
           esc_mode := v.escape, charset := v.charset }] }

/-- `add_view` as the caller sees it: success even on a duplicate. -/
def add_view (s : Store) (v : View) : Except DBError Store :=
  .ok (add_view_s s v)

/-- `remove_view(id)`: `DELETE FROM views WHERE id=:id`.  A `DELETE` matching
no row is an SQL no-op, so a nonexistent id succeeds silently. -/
def remove_view (s : Store) (id : Nat) : Except DBError Store :=
  .ok { s with views := s.views.filter (fun r => !(r.id == id)) }

/-- The fresh rowid SQLite assigns to a new `folders` row: one more than the
largest rowid in the table. -/
def freshFolderId (s : Store) : Nat :=
  (s.folders.foldr (fun f m => max f.id m) 0) + 1

/-- The inserted stub folder of `create_parent_for_file`'s `INSERT INTO
folders (name, parent) VALUES(:name, :par)`. -/
def insert_folder (s : Store) (parent : Nat) (nm : String) : Store :=
  { s with folders := s.folders ++
      [{ id := freshFolderId s, name := some nm, parent := some parent }] }

/-- `add_course(course)`: `INSERT INTO courses (id, semester, number, name,
abbrev, type, type_abbrev, sync) VALUES (:id, (SELECT id FROM semesters WHERE
name = :sem), ...)`.  `id` is the primary key; a duplicate raises
`IntegrityError`, which `query` swallows.  The `root` column is not in the
`INSERT` list; per the source comment "Create all tables, views and triggers"
(`database.py` line 164) it is filled by a trigger in `setup.sql`.  Modelled
from the spec: `setup.sql` is not under `src/`; the trigger is modelled as
creating a fresh root folder (`folders.course = course id`, spec §3/§6) and
storing its id in `root`. -/
def add_course_s (s : Store) (c : Course) : Store :=
  if s.courses.any (fun r => r.id == c.id) then s
  else
    let rootId := freshFolderId s
    { s with
      folders := s.folders ++ [{ id := rootId, course := some c.id }]
      courses := s.courses ++
        [{ id := c.id,
           semester := (s.semesters.find? (fun x => x.name == c.semester)).map (·.id),
           number := c.number, name := c.name, abbrv := c._abbrev,
           type := c.type, type_abbrev := c._type_abbrev, sync := c.sync,
           root := rootId }] }

/-- `add_course` as the caller sees it: success even on a duplicate id. -/
def add_course (s : Store) (c : Course) : Except DBError Store :=
  .ok (add_course_s s c)

/-- `update_course(course)`: `UPDATE courses SET number=..., name=...,
abbrev=..., type=..., type_abbrev=..., sync=... WHERE id=:id`, called with
`expected_rows=0`, so the affected-row count is never inspected: an id
matching no row updates nothing and raises nothing.  Note it binds the
computed properties `course.abbrev` / `course.type_abbrev` (not the raw
overrides), hence the `af`/`taf` parameters standing for
`abbreviate_course_name` / `abbreviate_course_type` from `util.py`. -/
def update_course (af taf : Option String → String) (s : Store) (c : Course) :
    Except DBError Store :=
  .ok { s with courses := s.courses.map (fun r =>
    if r.id == c.id then
      { r with number := c.number, name := c.name,
               abbrv := some (Course.abbrev af c), type := c.type,
               type_abbrev := some (Course.type_abbrev taf c), sync := c.sync }
    else r) }

/-- `delete_course(course)`: `DELETE FROM courses WHERE id = :id`.  A
nonexistent id deletes nothing and raises nothing. -/
def delete_course (s : Store) (id : String) : Except DBError Store :=
  .ok { s with courses := s.courses.filter (fun r => !(r.id == id)) }

/-- The inner `query_subdirectory()` of `create_parent_for_file`:
`SELECT id FROM folders WHERE parent = :par AND name = :name`, of which the
caller uses `rows[0]` — the first match in rowid order. -/
def query_subdirectory (folders : List FolderRow) (par : Nat) (nm : String) :
    Option FolderRow :=
  folders.find? (fun f => f.parent == some par && f.name == some nm)

/-- The `for folder in file.path` loop of `create_parent_for_file`
(`database.py` lines 309-323): look up the child, insert it if absent, re-run
the lookup, descend into `rows[0]`.  An empty re-lookup would make `rows[0]`
raise `IndexError`. -/
def create_parent_loop (s : Store) (parent : Nat) :
    List String → Except DBError (Nat × Store)
  | [] => .ok (parent, s)
  | nm :: rest =>
    match query_subdirectory s.folders parent nm with
    | some f => create_parent_loop s f.id rest
    | none =>
      match query_subdirectory (insert_folder s parent nm).folders parent nm with
      | some f => create_parent_loop (insert_folder s parent nm) f.id rest
      | none => .error .IndexError

/-- `create_parent_for_file(file)` (`database.py` lines 302-325): read the
course's root folder (`rows[0]` raises `IndexError` when `file.course` matches
no course), then walk/create the logical path. -/
def create_parent_for_file (s : Store) (f : File) : Except DBError (Nat × Store) :=
  match s.courses.find? (fun c => some c.id == f.course) with
  | none => .error .IndexError
  | some c => create_parent_loop s c.root f.path

/-- The row update performed by `update_file`'s `UPDATE files SET folder =
:par, name = :name, ..., version = version + 1 WHERE id = :id`. -/
def update_file_row (par : Nat) (f : File) (r : FileRow) : FileRow :=
  { r with folder := par, name := f.name, extension := f.extension,
           author := f.author, description := f.description,
           remote_date := f.remote_date, copyrighted := f.copyrighted,
           local_date := f.local_date, version := r.version + 1 }

/-- `update_file(file)` (`database.py` lines 337-351): resolve the parent
folder, apply the `UPDATE` (with `expected_rows=0`, so an id matching no row
is silent), then `DELETE FROM checkouts WHERE file=:id`. -/
def update_file (s : Store) (f : File) : Except DBError Store :=
  match create_parent_for_file s f with
  | .error e => .error e
  | .ok (par, s₁) =>
    let s₂ : Store := { s₁ with files := s₁.files.map (fun r =>
      if r.id == f.id then update_file_row par f r else r) }
    .ok { s₂ with checkouts := s₂.checkouts.filter (fun c => !(c.file == f.id)) }

/-- `update_file_local_date(file)`: `UPDATE files SET local_date = :local
WHERE id = :id` with `expected_rows=0`. -/
def update_file_local_date (s : Store) (f : File) : Except DBError Store :=
  .ok { s with files := s.files.map (fun r =>
    if r.id == f.id then { r with local_date := f.local_date } else r) }

/-- The list-comprehension in `list_courses`/`list_files` that turns the three
boolean flags into the SQL `IN (...)` list of integer sync codes, in the
source's order `[Full, Metadata, NoSync]`. -/
def syncModesInts (select_sync_yes select_sync_metadata_only select_sync_no : Bool) :
    List Int :=
  [(select_sync_yes, SyncMode.Full), (select_sync_metadata_only, SyncMode.Metadata),
   (select_sync_no, SyncMode.NoSync)].filterMap
    (fun pe => if pe.1 then some pe.2.toInt else none)

/-- SQLite `ORDER BY` on a nullable text column: `NULL`s sort first, strings
by the (modelled) lexicographic order. -/
def optStrLe : Option String → Option String → Bool
  | none, _ => true
  | some _, none => false
  | some a, some b => decide (a ≤ b)

/-- `list_courses(full=False, ...)`: `SELECT id FROM courses WHERE sync IN
(...) ORDER BY name`. -/
def list_courses_ids (s : Store) (select_sync_yes select_sync_metadata_only
    select_sync_no : Bool) : List String :=
  (((s.courses.filter (fun c =>
      (syncModesInts select_sync_yes select_sync_metadata_only select_sync_no).contains
        c.sync.toInt)).mergeSort
    (fun a b => optStrLe a.name b.name)).map (·.id))

/-- `list_courses(full=True, ...)`: `SELECT ... FROM courses AS c INNER JOIN
semesters AS s ON s.id = c.semester WHERE c.sync IN (...) ORDER BY c.name,
c.type`.  The result rows are returned here as the matching `CourseRow`s; the
Python wraps each one in a `Course` object, a per-row projection that does not
affect which courses appear. -/
def list_courses_full (s : Store) (select_sync_yes select_sync_metadata_only
    select_sync_no : Bool) : List CourseRow :=
  ((s.courses.filter (fun c =>
      (syncModesInts select_sync_yes select_sync_metadata_only select_sync_no).contains
        c.sync.toInt
      && s.semesters.any (fun sem => some sem.id == c.semester))).mergeSort
    (fun a b => if a.name = b.name then optStrLe a.type b.type else optStrLe a.name b.name))

/-- The `version` column of the (first) `files` row with the given id. -/
def fileVersion (s : Store) (fid : String) : Option Int :=
  (s.files.find? (fun r => r.id == fid)).map (·.version)

/-! ### Opening a store: `Database.__init__` (`database.py` lines 131-171) -/

/-- Index of the last occurrence of `c` in `l`, scanning like Python's
`str.rfind` (the accumulator `i` is the index of the head). -/
def rfindIdxAux (c : Char) : List Char → Nat → Option Nat
  | [], _ => none
  | a :: as, i =>
    match rfindIdxAux c as (i + 1) with
    | some j => some j
    | none => if a = c then some i else none

/-- `p.rfind(c)` as an `Option`al index. -/
def rfindIdx (l : List Char) (c : Char) : Option Nat := rfindIdxAux c l 0

/-- `os.path.splitext` (posix variant): split at the last `.`, except that a
dot inside the leading run of dots of the basename (after the last `/`) never
starts an extension — `".bashrc"` has no extension. -/
def splitext (p : String) : String × String :=
  let cs := p.toList
  let fnIdx : Nat :=
    match rfindIdx cs '/' with
    | some j => j + 1
    | none => 0
  match rfindIdx cs '.' with
  | none => (p, "")
  | some si =>
    if fnIdx < si &&
        (List.range si).any (fun k => decide (fnIdx ≤ k) && !(cs.getD k '.' == '.')) then
      ((cs.take si).asString, (cs.drop si).asString)
    else (p, "")

/-- The backup path built at `database.py` lines 143-144:
`"{}.backup-schema{}{}".format(base_name, db_version, ext)` where
`base_name, ext = os.path.splitext(file_name)`. -/
def backup_file (file_name : String) (db_version : Nat) : String :=
  (splitext file_name).1 ++ ".backup-schema" ++ toString db_version ++ (splitext file_name).2

/-- The persisted database file: the `PRAGMA user_version` integer, the row
contents, and the record of which SQL scripts have been executed against it. -/
structure DBFile where
  user_version : Nat := 0
  store : Store := {}
  scripts_run : List String := []
deriving DecidableEq, Repr

/-- The slice of the filesystem `Database.__init__` touches: the database file
and the backup copies written next to it by `shutil.copyfile`. -/
structure FS where
  db : DBFile := {}
  backups : List (String × DBFile) := []
deriving DecidableEq, Repr

/-- Outcome of `Database.__init__`: either an open store, or a raised
exception together with the filesystem state at the moment of the raise. -/
inductive OpenResult where
  | ok (fs : FS)
  | err (e : DBError) (fs : FS)
deriving DecidableEq, Repr

/-- `Database.schema_version = 12`, the code's target version. -/
def schema_version : Nat := 12

/-- `PRAGMA user_version = v`. -/
def set_user_version (fs : FS) (v : Nat) : FS :=
  { fs with db := { fs.db with user_version := v } }

/-- `query_script_file(name)`.  Modelled from the spec: the SQL scripts
(`setup.sql`, `migrate-9-11.sql`, `migrate-11-12.sql`) live in the package's
`sql/` directory, which is not under `src/`.  Per spec §9 they are modelled as
named setup/migration steps, recorded in `scripts_run`; `setup.sql` creates
empty tables (spec §4.1), so on the fresh empty store it adds no rows, and the
migration scripts' row transformations are abstracted. -/
def query_script_file (fs : FS) (name : String) : FS :=
  { fs with db := { fs.db with scripts_run := fs.db.scripts_run ++ [name] } }

/-- The `View(0, "default")` inserted on first setup (`database.py` line 166). -/
def default_view : View := { id := 0, name := some "default" }

/-- `Database.__init__(file_name)` (`database.py` lines 131-171): read
`PRAGMA user_version`; migrate from 9 or 11 (backing the file up first),
reject any other version below 12 except 0, initialize a fresh store at 0,
and reject versions above 12. -/
def open_database (file_name : String) (fs0 : FS) : OpenResult :=
  let db_version := fs0.db.user_version
  if db_version < schema_version then
    if db_version = 9 ∨ db_version = 11 then
      let fs1 : FS := { fs0 with
        backups := fs0.backups ++ [(backup_file file_name db_version, fs0.db)] }
      let fs2 := if db_version < 11 then query_script_file fs1 "migrate-9-11.sql" else fs1
      let fs3 := if db_version < 12 then query_script_file fs2 "migrate-11-12.sql" else fs2
      .ok (set_user_version fs3 schema_version)
    else if db_version ≠ 0 then
      .err .DatabaseVersionError fs0
    else
      let fs1 := set_user_version fs0 schema_version
      let fs2 := query_script_file fs1 "setup.sql"
      .ok { fs2 with db := { fs2.db with store := add_view_s fs2.db.store default_view } }
  else if db_version > schema_version then
    .err .DatabaseVersionError fs0
  else
    .ok fs0

end Database

end Studip

open Studip Studip.Database

/-! ## Helper lemmas -/

/-- A `SELECT ... WHERE parent/name` that already has a first match keeps it
when rows are appended behind it. -/
theorem query_subdirectory_append_some {l t : List FolderRow} {p : Nat} {nm : String}
    {f : FolderRow} (h : query_subdirectory l p nm = some f) :
    query_subdirectory (l ++ t) p nm = some f := by
  unfold query_subdirectory at h ⊢
  simp [List.find?_append, h]

/-- A matchless `SELECT` over the old rows delegates to the appended rows. -/
theorem query_subdirectory_append_none {l t : List FolderRow} {p : Nat} {nm : String}
    (h : query_subdirectory l p nm = none) :
    query_subdirectory (l ++ t) p nm = query_subdirectory t p nm := by
  unfold query_subdirectory at h ⊢
  simp [List.find?_append, h]

/-- After `create_parent_for_file` inserts the missing subfolder, re-running
`query_subdirectory` finds exactly the inserted row. -/
theorem query_subdirectory_insert (s : Store) (p : Nat) (nm : String)
    (h : query_subdirectory s.folders p nm = none) :
    query_subdirectory (insert_folder s p nm).folders p nm
      = some { id := freshFolderId s, name := some nm, parent := some p } := by
  unfold insert_folder
  rw [query_subdirectory_append_none h]
  unfold query_subdirectory
  simp

/-- The path-walking loop only appends `folders` rows; every other table is
untouched. -/
theorem create_parent_loop_frame (l : List String) : ∀ (s : Store) (p q : Nat) (s' : Store),
    create_parent_loop s p l = .ok (q, s') →
    s'.semesters = s.semesters ∧ s'.courses = s.courses ∧ s'.files = s.files ∧
    s'.views = s.views ∧ s'.checkouts = s.checkouts ∧
    ∃ t, s'.folders = s.folders ++ t := by
  induction l with
  | nil =>
    intro s p q s' h
    simp only [create_parent_loop, Except.ok.injEq, Prod.mk.injEq] at h
    obtain ⟨-, rfl⟩ := h
    exact ⟨rfl, rfl, rfl, rfl, rfl, [], by simp⟩
  | cons nm rest ih =>
    intro s p q s' h
    unfold create_parent_loop at h
    cases hq : query_subdirectory s.folders p nm with
    | some f =>
      rw [hq] at h
      exact ih s f.id q s' h
    | none =>
      rw [hq, query_subdirectory_insert s p nm hq] at h
      obtain ⟨h1, h2, h3, h4, h5, t, ht⟩ := ih _ _ q s' h
      refine ⟨h1, h2, h3, h4, h5, ?_⟩
      unfold insert_folder at ht
      exact ⟨_, by simpa using ht⟩

/-- The loop never raises: the re-query after an insert always finds the row
just inserted. -/
theorem create_parent_loop_total (l : List String) : ∀ (s : Store) (p : Nat),
    ∃ q s', create_parent_loop s p l = .ok (q, s') := by
  induction l with
  | nil => exact fun s p => ⟨p, s, rfl⟩
  | cons nm rest ih =>
    intro s p
    unfold create_parent_loop
    cases hq : query_subdirectory s.folders p nm with
    | some f => exact ih s f.id
    | none =>
      rw [query_subdirectory_insert s p nm hq]
      exact ih _ _

/-- Idempotence of the path-walking loop: rerunning it from the state it
produced finds every segment (first match unchanged, since rows are only
appended) and therefore inserts nothing and returns the same folder id. -/
theorem create_parent_loop_idem (l : List String) : ∀ (s : Store) (p q : Nat) (s' : Store),
    create_parent_loop s p l = .ok (q, s') →
    create_parent_loop s' p l = .ok (q, s') := by
  induction l with
  | nil =>
    intro s p q s' h
    simp only [create_parent_loop, Except.ok.injEq, Prod.mk.injEq] at h ⊢
    exact ⟨h.1, trivial⟩
  | cons nm rest ih =>
    intro s p q s' h
    unfold create_parent_loop at h ⊢
    cases hq : query_subdirectory s.folders p nm with
    | some f =>
      rw [hq] at h
      obtain ⟨-, -, -, -, -, t, ht⟩ := create_parent_loop_frame rest s f.id q s' h
      rw [ht, query_subdirectory_append_some hq]
      exact ih s f.id q s' h
    | none =>
      rw [hq, query_subdirectory_insert s p nm hq] at h
      obtain ⟨-, -, -, -, -, t, ht⟩ := create_parent_loop_frame rest _ _ q s' h
      unfold insert_folder at ht
      have hfound : query_subdirectory s'.folders p nm
          = some { id := freshFolderId s, name := some nm, parent := some p } := by
        rw [show s'.folders = s.folders ++
              ([{ id := freshFolderId s, name := some nm, parent := some p }] ++ t) by
            simpa using ht,
          query_subdirectory_append_none hq]
        unfold query_subdirectory
        simp
      rw [hfound]
      exact ih _ _ q s' h

/-- `create_parent_for_file` succeeds and preserves everything but `folders`
whenever the file's course exists. -/
theorem create_parent_for_file_frame (s : Store) (f : File) (p : Nat) (s' : Store)
    (h : create_parent_for_file s f = .ok (p, s')) :
    s'.semesters = s.semesters ∧ s'.courses = s.courses ∧ s'.files = s.files ∧
    s'.views = s.views ∧ s'.checkouts = s.checkouts ∧
    ∃ t, s'.folders = s.folders ++ t := by
  unfold create_parent_for_file at h
  cases hc : s.courses.find? (fun c => some c.id == f.course) with
  | none => rw [hc] at h; cases h
  | some c =>
    rw [hc] at h
    exact create_parent_loop_frame f.path s c.root p s' h

/-- `create_parent_for_file` returns `.ok` whenever the course row exists. -/
theorem create_parent_for_file_total (s : Store) (f : File)
    (hc : (s.courses.find? (fun c => some c.id == f.course)).isSome) :
    ∃ p s', create_parent_for_file s f = .ok (p, s') := by
  obtain ⟨c, hc⟩ := Option.isSome_iff_exists.mp hc
  obtain ⟨q, s', h⟩ := create_parent_loop_total f.path s c.root
  exact ⟨q, s', by unfold create_parent_for_file; rw [hc]; exact h⟩

/-- C3: folder resolution is idempotent — for every course id and logical
path, calling `create_parent_for_file` a second time from the store state the
first call produced returns the same folder id and leaves the store (in
particular the `folders` table) exactly as it was: no new folder rows. -/
theorem create_parent_for_file_idempotent (s s₁ : Store) (f : File) (par : Nat)
    (h : create_parent_for_file s f = .ok (par, s₁)) :
    create_parent_for_file s₁ f = .ok (par, s₁) := by
  obtain ⟨-, hcourses, -, -, -, -⟩ := create_parent_for_file_frame s f par s₁ h
  unfold create_parent_for_file at h ⊢
  cases hc : s.courses.find? (fun c => some c.id == f.course) with
  | none => rw [hc] at h; cases h
  | some c =>
    rw [hc] at h
    rw [hcourses, hc]
    exact create_parent_loop_idem f.path s c.root par s₁ h

/-- Witness for C3 at a concrete store: resolving `["a"]` under course `c1`
creates folder 2, and resolving again returns folder 2 with no new rows. -/
theorem create_parent_for_file_idempotent_witness :
    create_parent_for_file
      { courses := [{ id := "c1", sync := .Full, root := 1 }],
        folders := [{ id := 1, course := some "c1" },
                    { id := 2, name := some "a", parent := some 1 }] }
      { id := "f1", course := some "c1", path := ["a"] }
    = .ok (2,
      { courses := [{ id := "c1", sync := .Full, root := 1 }],
        folders := [{ id := 1, course := some "c1" },
                    { id := 2, name := some "a", parent := some 1 }] }) :=
  create_parent_for_file_idempotent
    { courses := [{ id := "c1", sync := .Full, root := 1 }],
      folders := [{ id := 1, course := some "c1" }] }
    { courses := [{ id := "c1", sync := .Full, root := 1 }],
      folders := [{ id := 1, course := some "c1" },
                  { id := 2, name := some "a", parent := some 1 }] }
    { id := "f1", course := some "c1", path := ["a"] } 2 rfl

/-- An id-keyed `UPDATE` commutes with `find?` on the id: the first matching
row is updated in place. -/
theorem find?_map_ite_id (l : List FileRow) (fid : String) (g : FileRow → FileRow)
    (hg : ∀ r, (g r).id = r.id) :
    (l.map (fun r => if r.id == fid then g r else r)).find? (fun r => r.id == fid)
      = (l.find? (fun r => r.id == fid)).map g := by
  induction l with
  | nil => simp
  | cons a l ih =>
    by_cases h : a.id = fid
    · rw [List.map_cons, if_pos (by simpa using h),
        List.find?_cons_of_pos _ (by simp [hg, h]),
        List.find?_cons_of_pos _ (by simp [h])]
      simp
    · rw [List.map_cons, if_neg (by simpa using h),
        List.find?_cons_of_neg _ (by simp [h]),
        List.find?_cons_of_neg _ (by simp [h])]
      exact ih

/-- A shared concrete store for the witnesses: one semester, one `Full`-sync
course `c1` with root folder 1, one file `f1` at version 0, the default view
(id 0) and a second view (id 7), and a checkout of `f1` in each view. -/
def sampleStore : Store :=
  { semesters := [{ id := "s1", name := some "WS 2016", ord := some 1 }],
    courses := [{ id := "c1", semester := some "s1", name := some "Algebra",
                  type := some "Lecture", sync := .Full, root := 1 }],
    folders := [{ id := 1, course := some "c1" }],
    files := [{ id := "f1", folder := 1, name := some "slides", version := 0 }],
    views := [{ id := 0, name := some "default" }, { id := 7, name := some "flat" }],
    checkouts := [⟨0, "f1"⟩, ⟨7, "f1"⟩] }

/-- The `File` object driving the witness calls to `update_file`. -/
def sampleFile : File :=
  { id := "f1", course := some "c1", path := ["a"], name := some "slides" }

/-- C1: for a stored file (its `files` row and its course both present), every
`update_file` call increments that file's `version` by exactly 1 — never
decrementing it — and deletes every `checkouts` row for the file, so that the
file id is afterwards absent from `list_checkouts v` for every view `v`. -/
theorem update_file_bumps_version_and_clears_checkouts
    (s : Store) (f : File) (ver : Int)
    (hc : (s.courses.find? (fun c => some c.id == f.course)).isSome)
    (hv : fileVersion s f.id = some ver) :
    ∃ s', update_file s f = .ok s' ∧
      fileVersion s' f.id = some (ver + 1) ∧
      (∀ v : Nat, f.id ∉ list_checkouts s' v) := by
  obtain ⟨par, s₁, hcp⟩ := create_parent_for_file_total s f hc
  obtain ⟨-, -, hfiles, -, hcheck, -⟩ := create_parent_for_file_frame s f par s₁ hcp
  have hupd : update_file s f = .ok
      { s₁ with
        files := s₁.files.map (fun r => if r.id == f.id then update_file_row par f r else r)
        checkouts := s₁.checkouts.filter (fun c => !(c.file == f.id)) } := by
    unfold update_file
    rw [hcp]
  refine ⟨_, hupd, ?_, ?_⟩
  · unfold fileVersion at hv ⊢
    simp only [hfiles]
    rw [find?_map_ite_id s.files f.id (update_file_row par f) (fun r => rfl)]
    cases hfind : s.files.find? (fun r => r.id == f.id) with
    | none => rw [hfind] at hv; cases hv
    | some r =>
      rw [hfind] at hv
      have hver : r.version = ver := by simpa using hv
      simp [update_file_row, hver]
  · intro v hmem
    simp only [list_checkouts, List.mem_map, List.mem_filter, Bool.and_eq_true,
      Bool.not_eq_true', beq_iff_eq, beq_eq_false_iff_ne] at hmem
    obtain ⟨c, ⟨⟨hmem₁, hne⟩, hview⟩, hfile⟩ := hmem
    exact hne hfile

/-- Witness for C1: updating stored file `f1` (version 0, checked out in views
0 and 7) succeeds, moves it to version 1, and empties its checkouts. -/
theorem update_file_bumps_version_and_clears_checkouts_witness :
    ∃ s', update_file sampleStore sampleFile = .ok s' ∧
      fileVersion s' "f1" = some 1 ∧ (∀ v : Nat, "f1" ∉ list_checkouts s' v) :=
  update_file_bumps_version_and_clears_checkouts sampleStore sampleFile 0 rfl rfl

/-- C7: `update_file_local_date` touches only the `local_date` column of the
rows matching the file's id: it succeeds, leaves every other table equal, keeps
`files` the same length with ids and `version`s unchanged row by row, leaves
rows with a different id untouched, and rewrites exactly `local_date` on the
matching row.  In particular it never bumps `version` and never deletes a
checkout. -/
theorem update_file_local_date_changes_only_local_date (s : Store) (f : File) :
    ∃ s', update_file_local_date s f = .ok s' ∧
      s'.semesters = s.semesters ∧ s'.courses = s.courses ∧ s'.folders = s.folders ∧
      s'.views = s.views ∧ s'.checkouts = s.checkouts ∧
      s'.files.length = s.files.length ∧
      (∀ i : Nat, (s'.files[i]?).map (·.id) = (s.files[i]?).map (·.id)) ∧
      (∀ i : Nat, (s'.files[i]?).map (·.version) = (s.files[i]?).map (·.version)) ∧
      (∀ i : Nat, ∀ r : FileRow, s.files[i]? = some r → r.id ≠ f.id →
        s'.files[i]? = some r) ∧
      (∀ i : Nat, ∀ r : FileRow, s.files[i]? = some r → r.id = f.id →
        s'.files[i]? = some { r with local_date := f.local_date }) := by
  refine ⟨_, rfl, rfl, rfl, rfl, rfl, rfl, by simp, ?_, ?_, ?_, ?_⟩
  · intro i
    rw [List.getElem?_map]
    cases s.files[i]? with
    | none => rfl
    | some r => by_cases h : r.id = f.id <;> simp [h]
  · intro i
    rw [List.getElem?_map]
    cases s.files[i]? with
    | none => rfl
    | some r => by_cases h : r.id = f.id <;> simp [h]
  · intro i r hr hne
    rw [List.getElem?_map, hr]
    simp [hne]
  · intro i r hr heq
    rw [List.getElem?_map, hr]
    simp [heq]

/-- An id-keyed `UPDATE` whose `WHERE` clause matches no row leaves the table
unchanged. -/
theorem map_ite_eq_self {α : Type} (l : List α) (p : α → Bool) (g : α → α)
    (h : ∀ r ∈ l, p r = false) : l.map (fun r => if p r then g r else r) = l := by
  induction l with
  | nil => rfl
  | cons a t ih =>
    rw [List.map_cons, if_neg (by simp [h a (List.mem_cons_self a t)]),
      ih (fun r hr => h r (List.mem_cons_of_mem a hr))]

/-- Counterexample to C2 as stated: `update_course` on a store that contains
no course at all — in particular none with id `c9` — returns normally with the
store unchanged; it does not fail with NotFound (no exception is raised, since
the `UPDATE` runs with `expected_rows=0` and its affected-row count is never
inspected). -/
theorem update_course_missing_id_is_silent_noop :
    update_course (fun _ => "ab") (fun _ => "ab") emptyStore { id := "c9" }
      = .ok emptyStore := rfl

/-- C2 (amended): operations on nonexistent ids never fail with NotFound.
`update_course` on a missing id returns normally with the store unchanged;
`update_file` on a missing file id (with an existing course) returns normally
and modifies no `files` row; `delete_course` and `remove_view` on missing ids
are no-op successes. -/
theorem missing_id_updates_succeed_and_deletes_are_noops
    (af taf : Option String → String) (s : Store) (c : Course) (f : File)
    (cid : String) (vid : Nat)
    (hcu : ∀ r ∈ s.courses, r.id ≠ c.id)
    (hfc : (s.courses.find? (fun r => some r.id == f.course)).isSome)
    (hff : ∀ r ∈ s.files, r.id ≠ f.id)
    (hcd : ∀ r ∈ s.courses, r.id ≠ cid)
    (hvd : ∀ r ∈ s.views, r.id ≠ vid) :
    update_course af taf s c = .ok s ∧
    (∃ s', update_file s f = .ok s' ∧ s'.files = s.files) ∧
    delete_course s cid = .ok s ∧
    remove_view s vid = .ok s := by
  refine ⟨?_, ?_, ?_, ?_⟩
  · unfold update_course
    rw [map_ite_eq_self s.courses (fun r => r.id == c.id) _
      (fun r hr => by simp [hcu r hr])]
  · obtain ⟨par, s₁, hcp⟩ := create_parent_for_file_total s f hfc
    obtain ⟨-, -, hfiles, -, -, -⟩ := create_parent_for_file_frame s f par s₁ hcp
    refine ⟨_, by unfold update_file; rw [hcp], ?_⟩
    show s₁.files.map _ = s.files
    rw [hfiles, map_ite_eq_self s.files (fun r => r.id == f.id) _
      (fun r hr => by simp [hff r hr])]
  · unfold delete_course
    rw [List.filter_eq_self.mpr (fun r hr => by simp [hcd r hr])]
  · unfold remove_view
    rw [List.filter_eq_self.mpr (fun r hr => by simp [hvd r hr])]

/-- Witness for the amended C2 at the concrete sample store: ids `c9`, `f9`
and view 99 exist nowhere, yet all four operations return `.ok`. -/
theorem missing_id_updates_succeed_witness :
    update_course (fun _ => "x") (fun _ => "x") sampleStore { id := "c9" } = .ok sampleStore ∧
    (∃ s', update_file sampleStore { id := "f9", course := some "c1" } = .ok s' ∧
      s'.files = sampleStore.files) ∧
    delete_course sampleStore "c9" = .ok sampleStore ∧
    remove_view sampleStore 99 = .ok sampleStore :=
  missing_id_updates_succeed_and_deletes_are_noops (fun _ => "x") (fun _ => "x")
    sampleStore { id := "c9" } { id := "f9", course := some "c1" } "c9" 99
    (by decide) rfl (by decide) (by decide) (by decide)

/-- C6: sync-mode filtering of `list_courses`.  Selecting only `Full`
(`select_sync_yes` alone) yields no course whose sync is `NoSync` or
`Metadata`, in either projection; selecting all three modes returns every
stored course: every id in the id-only projection, and — since the full
projection inner-joins `semesters` — every course whose `semester` reference
resolves, which per the spec's data model (§3, §6) is all of them. -/
theorem list_courses_sync_mode_filtering (s : Store) :
    (∀ r ∈ list_courses_full s true false false, r.sync = SyncMode.Full) ∧
    (∀ cid ∈ list_courses_ids s true false false,
      ∃ r ∈ s.courses, r.id = cid ∧ r.sync = SyncMode.Full) ∧
    (∀ r ∈ s.courses, r.id ∈ list_courses_ids s true true true) ∧
    (∀ r ∈ s.courses, (∃ sem ∈ s.semesters, some sem.id = r.semester) →
      r ∈ list_courses_full s true true true) := by
  refine ⟨?_, ?_, ?_, ?_⟩
  · intro r hr
    unfold list_courses_full at hr
    rw [List.mem_mergeSort, List.mem_filter, Bool.and_eq_true] at hr
    obtain ⟨-, h3, -⟩ := hr
    cases h : r.sync
    · rw [h] at h3; exact absurd h3 (by decide)
    · rw [h] at h3; exact absurd h3 (by decide)
    · rfl
  · intro cid hcid
    unfold list_courses_ids at hcid
    rw [List.mem_map] at hcid
    obtain ⟨r, hr, rfl⟩ := hcid
    rw [List.mem_mergeSort, List.mem_filter] at hr
    obtain ⟨hmem, h3⟩ := hr
    refine ⟨r, hmem, rfl, ?_⟩
    cases h : r.sync
    · rw [h] at h3; exact absurd h3 (by decide)
    · rw [h] at h3; exact absurd h3 (by decide)
    · rfl
  · intro r hr
    unfold list_courses_ids
    rw [List.mem_map]
    refine ⟨r, ?_, rfl⟩
    rw [List.mem_mergeSort, List.mem_filter]
    refine ⟨hr, ?_⟩
    cases h : r.sync <;> decide
  · rintro r hr ⟨sem, hsem, hid⟩
    unfold list_courses_full
    rw [List.mem_mergeSort, List.mem_filter, Bool.and_eq_true]
    refine ⟨hr, ?_, ?_⟩
    · cases h : r.sync <;> decide
    · rw [List.any_eq_true]
      refine ⟨sem, hsem, ?_⟩
      rw [hid]
      simp

/-- Witness for C6: in the sample store, course `c1` (whose semester `s1`
exists) is returned by the all-modes full projection. -/
theorem list_courses_sync_mode_filtering_witness :
    ({ id := "c1", semester := some "s1", name := some "Algebra",
       type := some "Lecture", sync := SyncMode.Full, root := 1 } : CourseRow)
      ∈ list_courses_full sampleStore true true true :=
  (list_courses_sync_mode_filtering sampleStore).2.2.2 _ (by decide)
    ⟨{ id := "s1", name := some "WS 2016", ord := some 1 }, by decide, rfl⟩

/-- A `File` whose explicit course-abbreviation override is absent and whose
own name differs from its course's name — the input exhibiting C9's bug. -/
def fileWithCourseName : File :=
  { id := "f1", course_name := some "Algebra", name := some "lecture01" }

/-- C9: with no explicit override, `File.course_abbrev` applies the
abbreviation function to the file's own `name` (`"lecture01"`), not to the
owning course's name (`course_name = "Algebra"`), so for any abbreviation
function separating the two (here: `getD ""`) it differs from the claimed
value.  Contrast `File.course_type_abbrev`, which correctly derives from
`course_type`, and `Course.abbrev`, which derives from the course's `name`. -/
theorem file_course_abbrev_uses_file_name_not_course_name :
    File.course_abbrev (fun o => o.getD "") fileWithCourseName = "lecture01" ∧
    fileWithCourseName.course_name = some "Algebra" ∧
    File.course_abbrev (fun o => o.getD "") fileWithCourseName
      ≠ (fun o : Option String => o.getD "") fileWithCourseName.course_name := by
  refine ⟨rfl, rfl, ?_⟩
  decide

/-- C10: keyword-argument mutations swallow `IntegrityError`: `add_course`
with an existing course id, `add_view` with an already-used view name, and a
second `add_checkout` for the same (view, file) pair all return success and
leave the store exactly as it was. -/
theorem kwargs_swallow_integrity_errors (s : Store) (c : Course) (v : View)
    (vid : Nat) (fid : String)
    (hc : ∃ r ∈ s.courses, r.id = c.id)
    (hv : ∃ r ∈ s.views, r.name = v.name) :
    add_course s c = .ok s ∧ add_view s v = .ok s ∧
    add_checkout (add_checkout_s s vid fid) vid fid
      = .ok (add_checkout_s s vid fid) := by
  refine ⟨?_, ?_, ?_⟩
  · unfold add_course add_course_s
    obtain ⟨r, hr, hid⟩ := hc
    rw [if_pos (List.any_eq_true.mpr ⟨r, hr, by simp [hid]⟩)]
  · unfold add_view add_view_s
    obtain ⟨r, hr, hn⟩ := hv
    rw [if_pos (List.any_eq_true.mpr ⟨r, hr, by simp [hn]⟩)]
  · have hstep : ∀ s' : Store,
        s'.checkouts.any (fun k => k.view == vid && k.file == fid) = true →
        add_checkout_s s' vid fid = s' := fun s' h => by
      unfold add_checkout_s
      rw [if_pos h]
    have hin : (add_checkout_s s vid fid).checkouts.any
        (fun k => k.view == vid && k.file == fid) = true := by
      unfold add_checkout_s
      by_cases h : s.checkouts.any (fun k => k.view == vid && k.file == fid)
      · rwa [if_pos h]
      · rw [if_neg h]
        simp
    unfold add_checkout
    rw [hstep _ hin]

/-- Witness for C10: duplicate course id `c1`, duplicate view name
`default`, and a repeated checkout of (view 0, file `f1`) in the sample
store are all silently ignored. -/
theorem kwargs_swallow_integrity_errors_witness :
    add_course sampleStore { id := "c1", sync := .Full } = .ok sampleStore ∧
    add_view sampleStore { id := 3, name := some "default" } = .ok sampleStore ∧
    add_checkout (add_checkout_s sampleStore 0 "f1") 0 "f1"
      = .ok (add_checkout_s sampleStore 0 "f1") :=
  kwargs_swallow_integrity_errors sampleStore { id := "c1", sync := .Full }
    { id := 3, name := some "default" } 0 "f1" (by decide) (by decide)

/-- C4: opening a store whose persisted `user_version` is above the target 12,
or below 12 but neither 0 (fresh) nor a known migration source (9 or 11),
raises `DatabaseVersionError`, and the raise happens before any mutation: the
filesystem state carried by the error is exactly the input state. -/
theorem open_database_incompatible_schema_fails_unmodified (file_name : String) (fs : FS)
    (h : schema_version < fs.db.user_version ∨
      (fs.db.user_version < schema_version ∧ fs.db.user_version ≠ 0 ∧
        fs.db.user_version ≠ 9 ∧ fs.db.user_version ≠ 11)) :
    open_database file_name fs = .err .DatabaseVersionError fs := by
  simp only [schema_version] at h
  simp only [open_database, schema_version]
  rcases h with hgt | ⟨hlt, h0, h9, h11⟩
  · rw [if_neg (by omega), if_pos (by omega)]
  · rw [if_pos hlt, if_neg (by omega), if_pos h0]

/-- Witness for C4: version 13 (newer than the code) and version 5 (no known
migration path) both fail with `DatabaseVersionError`, leaving the file as it
was. -/
theorem open_database_incompatible_schema_witness :
    open_database "cache.sqlite" { db := { user_version := 13 } }
      = .err .DatabaseVersionError { db := { user_version := 13 } } ∧
    open_database "cache.sqlite" { db := { user_version := 5 } }
      = .err .DatabaseVersionError { db := { user_version := 5 } } :=
  ⟨open_database_incompatible_schema_fails_unmodified "cache.sqlite" _ (Or.inl (by decide)),
   open_database_incompatible_schema_fails_unmodified "cache.sqlite" _ (Or.inr (by decide))⟩

/-- Does `needle` occur at the head of the second list? -/
def headMatches : List Char → List Char → Bool
  | _, [] => true
  | [], _ :: _ => false
  | a :: as, b :: bs => a == b && headMatches as bs

/-- Does `needle` occur anywhere inside the second (haystack) list? -/
def occursIn (needle : List Char) : List Char → Bool
  | [] => needle.isEmpty
  | a :: rest => headMatches (a :: rest) needle || occursIn needle rest

/-- Counterexample to C5 as stated: opening `cache.sqlite` at version 9 backs
it up as `cache.backup-schema9.sqlite` — a dot separator spliced in before the
extension — and the claimed suffix `-backup-schema9` (with a dash) occurs
nowhere in that name. -/
theorem backup_name_dot_separator_not_dash_suffix :
    backup_file "cache.sqlite" 9 = "cache.backup-schema9.sqlite" ∧
    occursIn "-backup-schema9".toList "cache.backup-schema9.sqlite".toList = false := by
  refine ⟨?_, ?_⟩ <;> decide

/-- C5 (amended): opening a version-9 store first records a backup copy of the
database file — named by splicing `.backup-schema9` between the base name and
the extension, not by appending a `-backup-schema9` suffix — then runs the
migration scripts in order (`migrate-9-11.sql`, then `migrate-11-12.sql`), and
ends with the persisted `user_version` equal to 12. -/
theorem open_database_migrates_from_9 (file_name : String) (fs : FS)
    (h : fs.db.user_version = 9) :
    open_database file_name fs = .ok
      { db := { user_version := 12, store := fs.db.store,
                scripts_run := fs.db.scripts_run ++
                  ["migrate-9-11.sql", "migrate-11-12.sql"] },
        backups := fs.backups ++ [(backup_file file_name 9, fs.db)] } ∧
    backup_file file_name 9
      = (splitext file_name).1 ++ ".backup-schema9" ++ (splitext file_name).2 := by
  constructor
  · obtain ⟨⟨uv, store, scripts⟩, backups⟩ := fs
    simp only at h
    subst h
    simp [open_database, schema_version, query_script_file, set_user_version]
  · unfold backup_file
    rw [String.append_assoc ((splitext file_name).1) ".backup-schema" (toString 9),
      show ".backup-schema" ++ toString (9 : Nat) = ".backup-schema9" from by decide]

/-- Witness for C5: a concrete version-9 store named `cache.sqlite` migrates
to version 12 with backup `cache.backup-schema9.sqlite` recorded first and the
two migration scripts applied in order. -/
theorem open_database_migrates_from_9_witness :
    open_database "cache.sqlite" { db := { user_version := 9 } } = .ok
      { db := { user_version := 12, store := ({ db := { user_version := 9 } } : FS).db.store,
                scripts_run := ({ db := { user_version := 9 } } : FS).db.scripts_run ++
                  ["migrate-9-11.sql", "migrate-11-12.sql"] },
        backups := ({ db := { user_version := 9 } } : FS).backups ++
          [(backup_file "cache.sqlite" 9, ({ db := { user_version := 9 } } : FS).db)] } ∧
    backup_file "cache.sqlite" 9
      = (splitext "cache.sqlite").1 ++ ".backup-schema9" ++ (splitext "cache.sqlite").2 :=
  open_database_migrates_from_9 "cache.sqlite" { db := { user_version := 9 } } rfl

/-- The `views` row that `add_view(View(0, "default"))` inserts into the
fresh store: id 0, name `default`, and the `View` class defaults for format,
escape mode and charset. -/
def default_view_row : ViewRow :=
  { id := 0, name := some "default",
    format := "{course}/{type}/{short-path}/{name}{ext}",
    base := none, esc_mode := .Similar, charset := .Unicode }

/-- C8: opening a fresh store (persisted version 0) runs `setup.sql`, inserts
exactly one view — the default view named `default` — into the otherwise empty
store, and persists `user_version = 12`; a second open of the resulting store
returns it unchanged: same version, setup not re-run, no duplicate rows. -/
theorem open_database_fresh_initializes_and_reopen_is_noop (fn fn2 : String) :
    ∃ fs1, open_database fn { db := { user_version := 0 } } = .ok fs1 ∧
      fs1.db.user_version = 12 ∧
      fs1.db.store = { emptyStore with views := [default_view_row] } ∧
      fs1.db.store.views = [default_view_row] ∧
      fs1.db.scripts_run = ["setup.sql"] ∧
      fs1.backups = [] ∧
      open_database fn2 fs1 = .ok fs1 :=
  ⟨_, rfl, rfl, rfl, rfl, rfl, rfl, rfl⟩
